import Mathlib

/-!
Shallow embedding of the simulation engine of `simlink_backend`.

The embedded code is the `NetworkSimulator` class and the
`simulate_network_events` driver of `main.py` (the same class text is
duplicated in `core/simulator.py`), the connection validation helpers of
`_main.py`, and the data shapes of `pc.py`, `switch.py` and `event.py`.

Modelling conventions:
* Python machine floats are modelled as exact rationals (`ℚ`);
* Python dictionaries are modelled as insertion-ordered association lists;
* Python exceptions (`KeyError`, `StopIteration`, `AttributeError`,
  `ZeroDivisionError`) are modelled with an `Except PyErr` result type —
  an exception is distinct from the "error log" dictionaries the code
  returns deliberately;
* the pseudo-random draws of `random.random() < 0.01` and
  `random.uniform(0.1, 2.0)` are modelled as two explicit input streams
  `lost : ℕ → Bool` and `rtt : ℕ → ℚ`, consumed at a cursor `rngK`
  threaded through the simulator state; `random.uniform(0.1, 2.0)` always
  yields a value inside `[0.1, 2.0]`, which theorems take as a hypothesis
  on the `rtt` stream;
* `time.sleep` calls and the log timestamps have no observable effect on
  any produced value and are dropped; the ARP entry timestamp is kept as
  the `now` field of the state, since claims talk about its mutation.
-/

namespace Simlink

/-- A host (PC) interface, from `pc.py` (`Interface`): only the fields the
simulator reads are kept (`name`, `mac`, `ip`). -/
structure HostIface where
  name : String
  mac : String
  ip : String
  deriving DecidableEq, Repr

/-- A switch interface, from `switch.py` (`SwitchInterface`): it has a `name`
but *no* `mac` and no `ip` attribute; reading those raises `AttributeError`. -/
structure SwIface where
  name : String
  deriving DecidableEq, Repr

/-- A device, from `pc.py` / `switch.py`: a `PC` with host interfaces or a
`Switch` with switch interfaces; both carry a `name` (read by
`validate_connection` in `_main.py`). -/
inductive Device where
  | pc (name : String) (interfaces : List HostIface)
  | sw (name : String) (interfaces : List SwIface)
  deriving DecidableEq, Repr

/-- The `name` attribute common to `PC` and `Switch`. -/
def Device.name : Device → String
  | .pc n _ => n
  | .sw n _ => n

/-- A connection, from `connection.py` usage: an (ordered, as stored) pair of
fully qualified interface references `"<device-id>.<interface-name>"`. -/
structure Connection where
  from_interface : String
  to_interface : String
  deriving DecidableEq, Repr

/-- An event, from `event.py`. -/
structure Event where
  id : String
  type : String
  source_interface : String
  destination_ip : String
  count : ℤ
  timeout : ℤ
  deriving DecidableEq, Repr

/-- An ARP cache entry, from the `ARPEntry` dataclass in `main.py`. -/
structure ARPEntry where
  ip : String
  mac : String
  timestamp : ℚ
  is_complete : Bool
  deriving DecidableEq, Repr

/-- The Python exceptions the embedded code can raise. -/
inductive PyErr where
  | keyError (k : String)
  | stopIteration
  | attributeError (a : String)
  | zeroDivisionError
  deriving DecidableEq, Repr

/-- The `devices` dictionary of `NetworkSimulator` (device id to device), as
an insertion-ordered association list. -/
abbrev Devices := List (String × Device)

/-- The nested ARP dictionary: device id to an inner dictionary from target
ip to `ARPEntry`. -/
abbrev ArpTable := List (String × List (String × ARPEntry))

/-- The mutable state of a `NetworkSimulator` instance: `devices` and
`connections` (read-only after `__init__`), the ARP table, the current
clock used for ARP timestamps, and the random-stream cursor. -/
structure SimState where
  devices : Devices
  connections : List Connection
  arpTable : ArpTable
  now : ℚ
  rngK : ℕ
  deriving DecidableEq, Repr

/-- The characters of a string before its first `'.'` (the whole string when
it has none). -/
def charsTilDot : List Char → List Char
  | [] => []
  | c :: cs => if c = '.' then [] else c :: charsTilDot cs

/-- The helper `netid_to_id` of `main.py`: `netid.split(".")[0]`, i.e. the
prefix of the string before its first `'.'` (the whole string when it has
none). -/
def netid_to_id (netid : String) : String :=
  ⟨charsTilDot netid.data⟩

/-- Lookup `d[k]` / `k in d` on a Python dictionary modelled as an
association list. -/
def dictGet {α : Type} (k : String) : List (String × α) → Option α
  | [] => none
  | (k2, v) :: rest => if k2 == k then some v else dictGet k rest

/-- Assignment `d[k] = v` on a Python dictionary modelled as an association
list: replaces the value of an existing key in place, otherwise appends. -/
def dictInsert {α : Type} (k : String) (v : α) : List (String × α) → List (String × α)
  | [] => [(k, v)]
  | (k2, v2) :: rest =>
      if k2 = k then (k, v) :: rest else (k2, v2) :: dictInsert k v rest

/-- The constructor `NetworkSimulator.__init__`: stores `devices` and
`connections` unchanged (no validation of any kind) and runs the ARP table
initialisation, which creates an empty inner ARP dictionary for every device
id. The clock starts at 0. -/
def mkSimulator (devices : Devices) (connections : List Connection) : SimState :=
  { devices := devices
    connections := connections
    arpTable := devices.map (fun p => (p.1, []))
    now := 0
    rngK := 0 }

/-- The lookup `NetworkSimulator.get_interface_by_ip`: scans every device in dictionary
order and every interface of each device in list order, returning the first
`(device_id, interface)` whose `interface.ip` equals `ip`. A `SwitchInterface`
has no `ip` attribute, so reaching the body of the inner loop on a switch with
at least one interface raises `AttributeError`. -/
def get_interface_by_ip : Devices → String → Except PyErr (Option (String × HostIface))
  | [], _ => .ok none
  | (did, .pc _ ifs) :: rest, ip =>
      match ifs.find? (fun i => i.ip == ip) with
      | some i => .ok (some (did, i))
      | none => get_interface_by_ip rest ip
  | (_, .sw _ []) :: rest, ip => get_interface_by_ip rest ip
  | (_, .sw _ (_ :: _)) :: _, _ => .error (.attributeError "ip")

/-- The source interface object `simulate_ping` threads into `resolve_arp` and
the per-packet logs: a host interface or a switch interface. -/
inductive SrcIface where
  | host (i : HostIface)
  | sw (i : SwIface)
  deriving DecidableEq, Repr

/-- The source-interface search of `simulate_ping`: the `next(...)` call over
the generator comparing each interface's qualified name
(device id, a dot, the interface name) with `event.source_interface`. It
yields the first matching interface of the device, `none` when the generator
is exhausted (Python raises `StopIteration` at the call site). -/
def Device.findSrcIface (source_device_id : String) (d : Device) (src : String) :
    Option SrcIface :=
  match d with
  | .pc _ ifs => (ifs.find? (fun i => source_device_id ++ "." ++ i.name == src)).map .host
  | .sw _ ifs => (ifs.find? (fun i => source_device_id ++ "." ++ i.name == src)).map .sw

/-- Reading `.mac` on the source interface object (`AttributeError` on a
switch interface). -/
def SrcIface.macAttr : SrcIface → Except PyErr String
  | .host i => .ok i.mac
  | .sw _ => .error (.attributeError "mac")

/-- The cache-miss tail of `NetworkSimulator.resolve_arp`: look the target ip
up in the topology; if absent return `None`; otherwise build the ARP request
log (which reads `source_interface.mac` — `AttributeError` on a switch
interface), insert a fresh complete entry into the requesting device's inner
table, and return the target interface's mac. -/
def resolveArpMiss (st : SimState) (source_device_id : String)
    (source_interface : SrcIface) (target_ip : String)
    (tbl : List (String × ARPEntry)) : Except PyErr (Option String × SimState) :=
  match get_interface_by_ip st.devices target_ip with
  | .error e => .error e
  | .ok none => .ok (none, st)
  | .ok (some (_, target_interface)) =>
      match source_interface.macAttr with
      | .error e => .error e
      | .ok _ =>
          let entry : ARPEntry :=
            { ip := target_ip
              mac := target_interface.mac
              timestamp := st.now
              is_complete := true }
          .ok (some target_interface.mac,
               { st with arpTable :=
                   dictInsert source_device_id (dictInsert target_ip entry tbl) st.arpTable })

/-- The resolver `NetworkSimulator.resolve_arp`: `self.arp_table[source_device_id]` raises
`KeyError` when the device id is unknown; a *complete* cached entry for the
target ip is returned immediately without touching any state; otherwise the
cache-miss path runs. -/
def resolve_arp (st : SimState) (source_device_id : String)
    (source_interface : SrcIface) (target_ip : String) :
    Except PyErr (Option String × SimState) :=
  match dictGet source_device_id st.arpTable with
  | none => .error (.keyError source_device_id)
  | some tbl =>
      match dictGet target_ip tbl with
      | some entry =>
          if entry.is_complete then .ok (some entry.mac, st)
          else resolveArpMiss st source_device_id source_interface target_ip tbl
      | none => resolveArpMiss st source_device_id source_interface target_ip tbl

/-- One echo request/reply header of an `icmp_log` entry. -/
structure EchoHdr where
  src_mac : String
  dest_mac : String
  src_ip : String
  dest_ip : String
  ttl : ℤ
  deriving DecidableEq, Repr

/-- One `icmp_log` dictionary of `simulate_ping`: the `echo_reply` key is only
present when the packet was not lost, and `rtt` is `None` (`none`) exactly
when the packet was lost. -/
structure IcmpLog where
  sequence : ℕ
  success : Bool
  rtt : Option ℚ
  echo_request : EchoHdr
  echo_reply : Option EchoHdr
  deriving DecidableEq, Repr

/-- The `details` sub-dictionary of a successful `simulate_ping` result. -/
structure PingDetails where
  source : String
  destination_ip : String
  packets_sent : ℤ
  packets_received : ℕ
  loss_percentage : ℚ
  rtt_min : Option ℚ
  rtt_max : Option ℚ
  rtt_avg : Option ℚ
  icmp_packets : List IcmpLog
  path_taken : List String
  deriving DecidableEq, Repr

/-- A dictionary returned by `simulate_ping`: either the full result record or
an error log from `create_error_log` (whose `status` is always `"failed"`). -/
inductive SimResult where
  | record (event_id : String) (status : String) (details : PingDetails)
  | errorLog (event_id : String) (status : String) (error : String)
  deriving DecidableEq, Repr

/-- The error-dictionary builder `NetworkSimulator.create_error_log`. -/
def create_error_log (event_id : String) (error : String) : SimResult :=
  .errorLog event_id "failed" error

/-- The aggregate `min(rtts) if rtts else None`. -/
def listMin : List ℚ → Option ℚ
  | [] => none
  | x :: xs => some (xs.foldl min x)

/-- The aggregate `max(rtts) if rtts else None`. -/
def listMax : List ℚ → Option ℚ
  | [] => none
  | x :: xs => some (xs.foldl max x)

/-- The aggregate `sum(rtts) / len(rtts) if rtts else None`. -/
def listAvg (l : List ℚ) : Option ℚ :=
  if l = [] then none else some (l.sum / (l.length : ℚ))

/-- The `for seq in range(event.count)` loop of `simulate_ping`, for a host
source interface: at stream cursor `k` and sequence number `seq`, with `n`
iterations left, draw the loss decision and the RTT, bump the success counter
and the RTT list when the packet is not lost, and append the `icmp_log` entry
(echo reply only when not lost). Returns
`(success_count, rtts, logs)` in Python append order. -/
def pingLoop (lost : ℕ → Bool) (rtt : ℕ → ℚ) (req rep : EchoHdr)
    (k seq : ℕ) : ℕ → ℕ × List ℚ × List IcmpLog
  | 0 => (0, [], [])
  | n + 1 =>
      let pl := lost k
      let r := rtt k
      let log : IcmpLog :=
        { sequence := seq
          success := !pl
          rtt := if pl then none else some r
          echo_request := req
          echo_reply := if pl then none else some rep }
      let rest := pingLoop lost rtt req rep (k + 1) (seq + 1) n
      ((if pl then rest.1 else rest.1 + 1),
       (if pl then rest.2.1 else r :: rest.2.1),
       log :: rest.2.2)

/-- The scan of the connection list inside one iteration of the
`get_network_path` loop: the first connection one of whose endpoints' device
id equals `current` yields the other endpoint's device id (`from` is tested
before `to`); `none` when no connection matches. -/
def findNextHop : List Connection → String → Option String
  | [], _ => none
  | c :: rest, current =>
      if netid_to_id c.from_interface == current then some (netid_to_id c.to_interface)
      else if netid_to_id c.to_interface == current then some (netid_to_id c.from_interface)
      else findNextHop rest current

/-- The `while current_id != dest_id` loop of `get_network_path`. The loop
extends `path` by one device per iteration and returns `[]` as soon as the
path exceeds 100 entries, so it runs at most 100 iterations from the initial
singleton path; the structural `fuel` argument (called with 200) therefore
never reaches 0 on any call made by `get_network_path`. An empty-string next
hop is covered by Python's falsy `if not next_hop` test. -/
def pathLoop (conns : List Connection) (dest_id : String) :
    ℕ → List String → String → List String
  | 0, _, _ => []
  | fuel + 1, path, current =>
      if current = dest_id then path
      else
        match findNextHop conns current with
        | none => []
        | some nh =>
            if nh = "" ∨ nh ∈ path then []
            else
              let path2 := path ++ [nh]
              if 100 < path2.length then []
              else pathLoop conns dest_id fuel path2 nh

/-- The path resolver `NetworkSimulator.get_network_path`. -/
def get_network_path (conns : List Connection) (source_id dest_id : String) :
    List String :=
  pathLoop conns dest_id 200 [source_id] source_id

/-- The final-result construction of `simulate_ping`, applied to the loop
outcome `(success_count, rtts, logs)`. Evaluating `loss_percentage` divides by
`event.count`, raising `ZeroDivisionError` when `event.count == 0` — in the
Python dictionary literal this happens before the RTT statistics and the path
are computed. The random cursor advances by the number of loop iterations. -/
def pingAggregate (st : SimState) (event : Event)
    (source_device_id dest_device_id : String)
    (res : ℕ × List ℚ × List IcmpLog) : Except PyErr (SimResult × SimState) :=
  if event.count = 0 then .error .zeroDivisionError
  else
    .ok (.record event.id (if 0 < res.1 then "success" else "failed")
          { source := event.source_interface
            destination_ip := event.destination_ip
            packets_sent := event.count
            packets_received := res.1
            loss_percentage := (((event.count : ℚ) - (res.1 : ℚ)) / (event.count : ℚ)) * 100
            rtt_min := listMin res.2.1
            rtt_max := listMax res.2.1
            rtt_avg := listAvg res.2.1
            icmp_packets := res.2.2
            path_taken := get_network_path st.connections source_device_id dest_device_id },
         { st with rngK := st.rngK + event.count.toNat })

/-- The engine `NetworkSimulator.simulate_ping`. `self.devices[source_device_id]` raises
`KeyError` on an unknown device id and the `next(...)` call raises
`StopIteration` when no interface of the device matches — the
`if not source_interface` guard below them can never fire, because a pydantic
model instance is always truthy, so the `"Source interface not found"` error
log is dead code. A lost destination yields the `"Destination IP not
reachable"` log; a falsy ARP result (`None` or `""`) yields the
`"ARP resolution failed"` log; otherwise the packet loop runs (reading
`source_interface.mac` in every iteration — `AttributeError` on a switch
source with at least one iteration) and the result record is assembled. -/
def simulate_ping (st : SimState) (lost : ℕ → Bool) (rtt : ℕ → ℚ)
    (event : Event) : Except PyErr (SimResult × SimState) :=
  let source_device_id := netid_to_id event.source_interface
  match dictGet source_device_id st.devices with
  | none => .error (.keyError source_device_id)
  | some source_device =>
      match source_device.findSrcIface source_device_id event.source_interface with
      | none => .error .stopIteration
      | some source_interface =>
          match get_interface_by_ip st.devices event.destination_ip with
          | .error e => .error e
          | .ok none => .ok (create_error_log event.id "Destination IP not reachable", st)
          | .ok (some (dest_device_id, _)) =>
              match resolve_arp st source_device_id source_interface event.destination_ip with
              | .error e => .error e
              | .ok (destMacOpt, st1) =>
                  match destMacOpt with
                  | none => .ok (create_error_log event.id "ARP resolution failed", st1)
                  | some dest_mac =>
                      if dest_mac = "" then
                        .ok (create_error_log event.id "ARP resolution failed", st1)
                      else
                        match source_interface with
                        | .host si =>
                            pingAggregate st1 event source_device_id dest_device_id
                              (pingLoop lost rtt
                                ⟨si.mac, dest_mac, si.ip, event.destination_ip, 64⟩
                                ⟨dest_mac, si.mac, event.destination_ip, si.ip, 64⟩
                                st1.rngK 0 event.count.toNat)
                        | .sw _ =>
                            if event.count.toNat = 0 then
                              pingAggregate st1 event source_device_id dest_device_id
                                (0, [], [])
                            else .error (.attributeError "mac")

/-- The event loop of `simulate_network_events`: events are taken in order; a
`"ping"` event contributes the result of `simulate_ping` (exceptions
propagate, aborting the whole batch); any other event type is skipped. -/
def simEventsGo (lost : ℕ → Bool) (rtt : ℕ → ℚ) :
    SimState → List Event → Except PyErr (List SimResult)
  | _, [] => .ok []
  | st, e :: rest =>
      if e.type = "ping" then
        match simulate_ping st lost rtt e with
        | .error err => .error err
        | .ok (r, st') =>
            match simEventsGo lost rtt st' rest with
            | .error err => .error err
            | .ok rs => .ok (r :: rs)
      else simEventsGo lost rtt st rest

/-- The driver `simulate_network_events` of `main.py`: builds the simulator
and folds the event loop over the ordered event list. -/
def simulate_network_events (devices : Devices) (connections : List Connection)
    (lost : ℕ → Bool) (rtt : ℕ → ℚ) (events : List Event) :
    Except PyErr (List SimResult) :=
  simEventsGo lost rtt (mkSimulator devices connections) events

/-- The helper `get_devices_by_connection_id` of `_main.py`: dictionary
indexing raises `KeyError` on a dangling endpoint. -/
def get_devices_by_connection_id (devices : Devices) (c : Connection) :
    Except PyErr (Device × Device) :=
  match dictGet (netid_to_id c.from_interface) devices with
  | none => .error (.keyError (netid_to_id c.from_interface))
  | some f =>
      match dictGet (netid_to_id c.to_interface) devices with
      | none => .error (.keyError (netid_to_id c.to_interface))
      | some t => .ok (f, t)

/-- The check `validate_connection` of `_main.py`: the two endpoint devices
must have different `name` attributes (note: names, not ids). -/
def validate_connection (devices : Devices) (c : Connection) : Except PyErr Bool :=
  match get_devices_by_connection_id devices c with
  | .error e => .error e
  | .ok (f, t) => .ok (decide (f.name ≠ t.name))

/-- The `validated_connections` filter loop of `_main.py`: keeps, in order,
exactly the connections `validate_connection` accepts; a rejected connection
is dropped with no error and no log. -/
def validated_connections (devices : Devices) :
    List Connection → Except PyErr (List Connection)
  | [] => .ok []
  | c :: rest =>
      match validate_connection devices c with
      | .error e => .error e
      | .ok b =>
          match validated_connections devices rest with
          | .error e => .error e
          | .ok vs => .ok (if b then c :: vs else vs)

/-! ### Projections used to state concrete results compactly -/

/-- The `path_taken` of a ping outcome, when it is a full result record. -/
def pingPath : Except PyErr (SimResult × SimState) → Option (List String)
  | .ok (.record _ _ d, _) => some d.path_taken
  | _ => none

/-- The `status` of a ping outcome, when it is a full result record. -/
def pingStatusR : Except PyErr (SimResult × SimState) → Option String
  | .ok (.record _ s _, _) => some s
  | _ => none

/-- The `packets_received` of a ping outcome, when it is a full record. -/
def pingReceived : Except PyErr (SimResult × SimState) → Option ℕ
  | .ok (.record _ _ d, _) => some d.packets_received
  | _ => none

/-- The `details` block of a ping outcome, when it is a full record
(an arbitrary placeholder otherwise). -/
def pingDetailsOf (x : Except PyErr (SimResult × SimState)) : PingDetails :=
  match x with
  | .ok (.record _ _ d, _) => d
  | _ => ⟨"", "", 0, 0, 0, none, none, none, [], []⟩

/-- The final simulator state of a ping outcome, when the call returned
(an arbitrary placeholder otherwise). -/
def pingStateOf (x : Except PyErr (SimResult × SimState)) : SimState :=
  match x with
  | .ok (_, st) => st
  | _ => ⟨[], [], [], 0, 0⟩

/-- Whether a ping outcome is a full result record (as opposed to an error
log or an escaped exception). -/
def isRecord : Except PyErr (SimResult × SimState) → Bool
  | .ok (.record _ _ _, _) => true
  | _ => false

/-- All `rtt` values recorded in the `icmp_packets` of a details block lie in
the closed interval `[lo, hi]`. -/
def detailsRttsIn (lo hi : ℚ) (d : PingDetails) : Prop :=
  ∀ l ∈ d.icmp_packets, ∀ x : ℚ, l.rtt = some x → lo ≤ x ∧ x ≤ hi

/-- The host interfaces of a device (a switch exposes none with a `mac`
readable by `get_interface_by_ip`). -/
def pcIfaces : Device → List HostIface
  | .pc _ ifs => ifs
  | .sw _ _ => []

/-- Every host interface of the topology has a non-empty hardware address. -/
def DevMacsOk (devices : Devices) : Prop :=
  ∀ p ∈ devices, ∀ i ∈ pcIfaces p.2, i.mac ≠ ""

/-- Every complete ARP entry of the cache has a non-empty hardware address
(holds for every state reachable in a run over a topology satisfying
`DevMacsOk`, since entries are only created from interface macs). -/
def ArpMacsOk (tbl : ArpTable) : Prop :=
  ∀ q ∈ tbl, ∀ r ∈ q.2, r.2.is_complete = true → r.2.mac ≠ ""

instance (devices : Devices) : Decidable (DevMacsOk devices) :=
  inferInstanceAs (Decidable (∀ p ∈ devices, ∀ i ∈ pcIfaces p.2, i.mac ≠ ""))

instance (tbl : ArpTable) : Decidable (ArpMacsOk tbl) :=
  inferInstanceAs
    (Decidable (∀ q ∈ tbl, ∀ r ∈ q.2, r.2.is_complete = true → r.2.mac ≠ ""))

/-! ### The spec's scenario topology (§8): host `pc1` (10.0.0.1) — `switch1`
— host `pc2` (10.0.0.2).  The devices dictionary lists `pc2` before
`switch1`; scanning a switch interface in `get_interface_by_ip` raises
`AttributeError` (switch interfaces have no `ip`), so this insertion order is
the one under which the scenario's lookups complete at all. -/

/-- Scenario host `pc1`, interface `eth0`, IP `10.0.0.1`. -/
def pc1dev : Device := .pc "PC1" [⟨"eth0", "AA:BB:CC:DD:EE:01", "10.0.0.1"⟩]

/-- Scenario host `pc2`, interface `eth0`, IP `10.0.0.2`. -/
def pc2dev : Device := .pc "PC2" [⟨"eth0", "AA:BB:CC:DD:EE:02", "10.0.0.2"⟩]

/-- Scenario switch `switch1` with two ports. -/
def sw1dev : Device := .sw "Switch1" [⟨"port1"⟩, ⟨"port2"⟩]

/-- The scenario devices dictionary, `pc2` inserted before `switch1`. -/
def devScenario : Devices := [("pc1", pc1dev), ("pc2", pc2dev), ("switch1", sw1dev)]

/-- The `pc1 ↔ switch1` connection. -/
def connPcSw : Connection := ⟨"pc1.eth0", "switch1.port1"⟩

/-- The `switch1 ↔ pc2` connection. -/
def connSwPc : Connection := ⟨"switch1.port2", "pc2.eth0"⟩

/-- The scenario ping event: 5 packets from `pc1.eth0` to `10.0.0.2`. -/
def evPing5 : Event := ⟨"e1", "ping", "pc1.eth0", "10.0.0.2", 5, 1000⟩

/-- The echo-request header of every scenario packet. -/
def echoReqS : EchoHdr :=
  ⟨"AA:BB:CC:DD:EE:01", "AA:BB:CC:DD:EE:02", "10.0.0.1", "10.0.0.2", 64⟩

/-- The echo-reply header of every scenario packet. -/
def echoRepS : EchoHdr :=
  ⟨"AA:BB:CC:DD:EE:02", "AA:BB:CC:DD:EE:01", "10.0.0.2", "10.0.0.1", 64⟩

/-- The simulator state right after the scenario's ARP resolution: `pc1`'s
inner table holds the fresh complete entry for `10.0.0.2`. -/
def stScenarioArp (conns : List Connection) : SimState :=
  { devices := devScenario
    connections := conns
    arpTable :=
      [("pc1", [("10.0.0.2", ⟨"10.0.0.2", "AA:BB:CC:DD:EE:02", 0, true⟩)]),
       ("pc2", []), ("switch1", [])]
    now := 0
    rngK := 0 }

/-- A one-host topology used for the per-event failure claims. -/
def devSolo : Devices := [("pc1", pc1dev)]

/-- A ping event naming an interface (`eth9`) the source device does not
have. -/
def evBadIface : Event := ⟨"e2", "ping", "pc1.eth9", "10.0.0.1", 1, 1000⟩

/-- A ping event naming a device (`ghost`) absent from the topology. -/
def evBadDev : Event := ⟨"e4", "ping", "ghost.eth0", "10.0.0.1", 1, 1000⟩

/-- A non-ping event. -/
def evOther : Event := ⟨"e3", "arp", "pc1.eth0", "10.0.0.1", 1, 1000⟩

/-- A devices dictionary for the self-connection claim. -/
def devC3 : Devices := [("pc1", pc1dev), ("switch1", sw1dev)]

/-- A connection both of whose endpoints resolve to device `pc1`. -/
def selfConn : Connection := ⟨"pc1.eth0", "pc1.eth1"⟩

/-- A ping event of `pc1` to its own address, one packet. -/
def evSelf : Event := ⟨"e9", "ping", "pc1.eth0", "10.0.0.1", 1, 0⟩

/-- The scenario ping event with `count = 0`. -/
def evCount0 : Event := ⟨"e0", "ping", "pc1.eth0", "10.0.0.2", 0, 1000⟩

/-- The scenario ping event with `count = 2` (used with a stream losing the
first packet, to exercise partial loss). -/
def evPing2 : Event := ⟨"e5", "ping", "pc1.eth0", "10.0.0.2", 2, 1000⟩

/-- A loss stream that drops exactly the first drawn packet. -/
def lostFirst : ℕ → Bool := fun n => n == 0

/-- A state whose ARP cache already holds a complete entry, with a timestamp
(7) differing from the current clock (3), for the cache-hit claim. -/
def stC6 : SimState :=
  { devices := devSolo
    connections := []
    arpTable := [("pc1", [("10.0.0.2", ⟨"10.0.0.2", "MM:00", 7, true⟩)])]
    now := 3
    rngK := 0 }

/-! ### IEEE 754 binary64 semantics of the loss formulas

The simulator's numeric fields are modelled as exact rationals above, but
Python itself evaluates `loss_percentage = ((event.count - success_count) /
event.count) * 100` and `packets_received / packets_sent * 100` in IEEE 754
binary64 ("double") arithmetic: integer true division and multiplication
each round their exact rational value once, to 53 significant bits, to
nearest with ties to even. The model below captures exactly that for
positive values in the normal range (no zero, subnormal, overflow or sign
handling — all values of these formulas at the inputs of interest are
positive normal numbers). A double is represented as a pair
`(m, g) : ℕ × ℤ` standing for the value `m * 2 ^ g` with
`2 ^ 52 ≤ m < 2 ^ 53`. -/

/-- Floor of log2 with explicit structural fuel, so the kernel can evaluate
it; `log2f fuel n` halves `n` at most `fuel` times, and every use below
passes numbers under `2 ^ 128`, so a fuel of 128 is never exhausted. -/
def log2f : ℕ → ℕ → ℕ
  | 0, _ => 0
  | fuel + 1, n => if n < 2 then 0 else log2f fuel (n / 2) + 1

/-- Round `num / den` to the nearest integer, ties to even (the IEEE 754
default rounding applied at an integer grid). -/
def rne (num den : ℕ) : ℕ :=
  let q := num / den
  let r := num % den
  if den < 2 * r then q + 1
  else if 2 * r < den then q
  else if q % 2 = 0 then q else q + 1

/-- Floor of log2 of the positive rational `a / b`, computed by scaling with
`2 ^ 64` (valid whenever the ratio is at least `2 ^ (-64)`, which holds for
every use below). -/
def ratLog2 (a b : ℕ) : ℤ := (log2f 128 (a * 2 ^ 64 / b) : ℤ) - 64

/-- The binary64 double nearest to the positive rational `a / b` (round to
nearest, ties to even), as a normalized mantissa–exponent pair; the final
branch handles a mantissa that rounds up into the next binade. -/
def floatOfRat (a b : ℕ) : ℕ × ℤ :=
  let g := ratLog2 a b - 52
  let num := if 0 ≤ g then a else a * 2 ^ (-g).toNat
  let den := if 0 ≤ g then b * 2 ^ g.toNat else b
  let n := rne num den
  if n = 2 ^ 53 then (2 ^ 52, g + 1) else (n, g)

/-- Python's float true division of two positive machine integers (each
exactly representable), as in `(event.count - success_count) / event.count`
and `packets_received / packets_sent`: the exact quotient is rounded once. -/
def fquot (a b : ℕ) : ℕ × ℤ := floatOfRat a b

/-- Python's float multiplication of a binary64 value by 100, as in
`... * 100`: the exact product `(100 * m) * 2 ^ g` is rounded once to 53
significant bits; scaling by a power of two is exact in binary64, so only
the integer `100 * m` needs rounding. -/
def fmul100 (x : ℕ × ℤ) : ℕ × ℤ :=
  let y := floatOfRat (100 * x.1) 1
  (y.1, y.2 + x.2)

/-- The exact sum of two mantissa–exponent values (exponents aligned, no
rounding). -/
def dyadicAdd (x y : ℕ × ℤ) : ℕ × ℤ :=
  if x.2 ≤ y.2 then (x.1 + y.1 * 2 ^ (y.2 - x.2).toNat, x.2)
  else (x.1 * 2 ^ (x.2 - y.2).toNat + y.1, y.2)

/-- Whether a mantissa–exponent value equals the natural number `c`
exactly. -/
def dyadicEqNat (x : ℕ × ℤ) (c : ℕ) : Bool :=
  if 0 ≤ x.2 then x.1 * 2 ^ x.2.toNat == c else x.1 == c * 2 ^ (-x.2).toNat

/-! ### Helper lemmas -/

/-- Evaluation of the scenario ping up to the packet loop: for any random
streams and any connection list, the lookups and the ARP exchange are fixed,
leaving `pingAggregate` applied to the loop outcome. -/
theorem scenario_reduce (conns : List Connection) (lost : ℕ → Bool) (rtt : ℕ → ℚ) :
    simulate_ping (mkSimulator devScenario conns) lost rtt evPing5 =
      pingAggregate (stScenarioArp conns) evPing5 "pc1" "pc2"
        (pingLoop lost rtt echoReqS echoRepS 0 0 5) := rfl

/-- The success counter of the packet loop is positive iff some drawn packet
in the consumed window is not lost. -/
theorem pingLoop_fst_pos (lost : ℕ → Bool) (rtt : ℕ → ℚ) (req rep : EchoHdr) :
    ∀ n k seq, 0 < (pingLoop lost rtt req rep k seq n).1 ↔
      ∃ i, i < n ∧ lost (k + i) = false := by
  intro n
  induction n with
  | zero => intro k seq; simp [pingLoop]
  | succ n ih =>
      intro k seq
      simp only [pingLoop]
      cases hk : lost k with
      | true =>
          simp only [if_true]
          rw [ih (k + 1) (seq + 1)]
          constructor
          · rintro ⟨i, hi, h⟩
            exact ⟨i + 1, by omega, by simpa [Nat.add_comm, Nat.add_assoc, Nat.add_left_comm] using h⟩
          · rintro ⟨i, hi, h⟩
            cases i with
            | zero => simp [hk] at h
            | succ j =>
                exact ⟨j, by omega, by simpa [Nat.add_comm, Nat.add_assoc, Nat.add_left_comm] using h⟩
      | false =>
          simp only [if_false, Bool.false_eq_true]
          constructor
          · intro _; exact ⟨0, by omega, by simpa using hk⟩
          · intro _; omega

/-- Every RTT recorded by the packet loop is a value of the `rtt` stream, so
it lies in any interval bounding the stream. -/
theorem pingLoop_rtt_range (lost : ℕ → Bool) (rtt : ℕ → ℚ) (req rep : EchoHdr)
    (lo hi : ℚ) (hr : ∀ i, lo ≤ rtt i ∧ rtt i ≤ hi) :
    ∀ n k seq, ∀ l ∈ (pingLoop lost rtt req rep k seq n).2.2,
      ∀ x : ℚ, l.rtt = some x → lo ≤ x ∧ x ≤ hi := by
  intro n
  induction n with
  | zero => intro k seq l hl; simp [pingLoop] at hl
  | succ n ih =>
      intro k seq l hl x hx
      simp only [pingLoop, List.mem_cons] at hl
      rcases hl with hl | hl
      · subst hl
        simp only at hx
        cases hk : lost k with
        | true => simp [hk] at hx
        | false =>
            simp only [hk, if_false, Bool.false_eq_true, Option.some.injEq] at hx
            subst hx; exact hr k
      · exact ih (k + 1) (seq + 1) l hl x hx

/-- A successful dictionary lookup exhibits a member pair. -/
theorem dictGet_mem {α : Type} (l : List (String × α)) (k : String) (v : α)
    (h : dictGet k l = some v) : (k, v) ∈ l := by
  induction l with
  | nil => simp [dictGet] at h
  | cons p rest ih =>
      obtain ⟨k2, v2⟩ := p
      simp only [dictGet] at h
      by_cases hk : k2 = k
      · subst hk
        simp at h
        subst h
        exact List.mem_cons_self _ _
      · rw [if_neg (by simpa using hk)] at h
        exact List.mem_cons_of_mem _ (ih h)

/-- Members of a dictionary after assignment: the new pair or an old one. -/
theorem mem_dictInsert {α : Type} (k : String) (v : α) (l : List (String × α))
    (q : String × α) (h : q ∈ dictInsert k v l) : q = (k, v) ∨ q ∈ l := by
  induction l with
  | nil => simp [dictInsert] at h; exact Or.inl h
  | cons p rest ih =>
      obtain ⟨k2, v2⟩ := p
      simp only [dictInsert] at h
      by_cases hk : k2 = k
      · rw [if_pos hk] at h
        rcases List.mem_cons.1 h with h | h
        · exact Or.inl h
        · exact Or.inr (List.mem_cons_of_mem _ h)
      · rw [if_neg hk] at h
        rcases List.mem_cons.1 h with h | h
        · exact Or.inr (by simp [h])
        · rcases ih h with h | h
          · exact Or.inl h
          · exact Or.inr (List.mem_cons_of_mem _ h)

/-- A successful IP lookup returns an interface of one of the PC devices of
the dictionary. -/
theorem get_interface_by_ip_mem (devices : Devices) (ip did : String)
    (i : HostIface) (h : get_interface_by_ip devices ip = .ok (some (did, i))) :
    ∃ n ifs, (did, Device.pc n ifs) ∈ devices ∧ i ∈ ifs := by
  induction devices with
  | nil => simp [get_interface_by_ip] at h
  | cons p rest ih =>
      obtain ⟨d0, dev⟩ := p
      cases dev with
      | pc n ifs =>
          simp only [get_interface_by_ip] at h
          cases hf : ifs.find? (fun j => j.ip == ip) with
          | some j =>
              rw [hf] at h
              simp only [Except.ok.injEq, Option.some.injEq, Prod.mk.injEq] at h
              obtain ⟨h1, h2⟩ := h
              subst h1; subst h2
              exact ⟨n, ifs, List.mem_cons_self _ _, List.mem_of_find?_eq_some hf⟩
          | none =>
              rw [hf] at h
              obtain ⟨n2, ifs2, hm, hi⟩ := ih h
              exact ⟨n2, ifs2, List.mem_cons_of_mem _ hm, hi⟩
      | sw n ifs =>
          cases ifs with
          | nil =>
              simp only [get_interface_by_ip] at h
              obtain ⟨n2, ifs2, hm, hi⟩ := ih h
              exact ⟨n2, ifs2, List.mem_cons_of_mem _ hm, hi⟩
          | cons j js => simp [get_interface_by_ip] at h

/-- Every full result record produced by `simulate_ping` satisfies the
aggregation formulas of the final dictionary: the event had a nonzero count
(else `ZeroDivisionError`), the record carries the event id and count, the
status is `"success"` exactly when some packet was received, and the loss
percentage is `(sent - received) / sent * 100`. -/
theorem simulate_ping_record_inv (st : SimState) (lost : ℕ → Bool) (rtt : ℕ → ℚ)
    (ev : Event) (e s : String) (d : PingDetails) (st' : SimState)
    (h : simulate_ping st lost rtt ev = .ok (.record e s d, st')) :
    ev.count ≠ 0 ∧ e = ev.id ∧ d.packets_sent = ev.count ∧
    s = (if 0 < d.packets_received then "success" else "failed") ∧
    d.loss_percentage =
      (((ev.count : ℚ) - (d.packets_received : ℚ)) / (ev.count : ℚ)) * 100 := by
  simp only [simulate_ping, create_error_log] at h
  split at h
  · exact absurd h (by simp)
  · split at h
    · exact absurd h (by simp)
    · split at h
      · exact absurd h (by simp)
      · exact absurd h (by simp)
      · split at h
        · exact absurd h (by simp)
        · split at h
          · exact absurd h (by simp)
          · split at h
            · exact absurd h (by simp)
            · split at h
              · simp only [pingAggregate] at h
                split at h
                · exact absurd h (by simp)
                · rename_i hcount
                  simp only [Except.ok.injEq, Prod.mk.injEq,
                    SimResult.record.injEq] at h
                  obtain ⟨⟨hid, hs, hd⟩, _⟩ := h
                  subst hd
                  exact ⟨hcount, hid.symm, rfl, hs.symm, rfl⟩
              · split at h
                · simp only [pingAggregate] at h
                  split at h
                  · exact absurd h (by simp)
                  · rename_i hcount
                    simp only [Except.ok.injEq, Prod.mk.injEq,
                      SimResult.record.injEq] at h
                    obtain ⟨⟨hid, hs, hd⟩, _⟩ := h
                    subst hd
                    exact ⟨hcount, hid.symm, rfl, hs.symm, rfl⟩
                · exact absurd h (by simp)

/-- The cache-miss path of `resolve_arp`: it preserves the non-empty-mac
cache invariant, leaves the topology untouched, only hands out non-empty
hardware addresses, and succeeds whenever the target ip is owned by some
interface of the topology. -/
theorem resolveArpMiss_spec (st : SimState) (sid : String) (si : SrcIface)
    (t : String) (tbl : List (String × ARPEntry)) (x : Option String)
    (st1 : SimState)
    (hdev : DevMacsOk st.devices) (harp : ArpMacsOk st.arpTable)
    (htbl : dictGet sid st.arpTable = some tbl)
    (h : resolveArpMiss st sid si t tbl = .ok (x, st1)) :
    ArpMacsOk st1.arpTable ∧ st1.devices = st.devices ∧
    (∀ m, x = some m → m ≠ "") ∧
    (∀ p : String × HostIface,
      get_interface_by_ip st.devices t = .ok (some p) → ∃ m, x = some m) := by
  simp only [resolveArpMiss] at h
  split at h
  · exact absurd h (by simp)
  · rename_i hgi
    simp only [Except.ok.injEq, Prod.mk.injEq] at h
    obtain ⟨hx, hst⟩ := h
    subst hx; subst hst
    refine ⟨harp, rfl, ?_, ?_⟩
    · intro m hm; cases hm
    · intro p hp; rw [hp] at hgi; simp at hgi
  · rename_i tid ti hgi
    cases si with
    | sw i => exact absurd h (by simp [SrcIface.macAttr])
    | host i =>
        simp only [SrcIface.macAttr, Except.ok.injEq, Prod.mk.injEq] at h
        obtain ⟨hx, hst⟩ := h
        subst hx
        have htm : ti.mac ≠ "" := by
          obtain ⟨n, ifs, hm, hi⟩ := get_interface_by_ip_mem st.devices t tid ti hgi
          exact hdev (tid, Device.pc n ifs) hm ti (by simpa [pcIfaces] using hi)
        refine ⟨?_, ?_, ?_, ?_⟩
        · rw [← hst]
          intro q2 hq2 r2 hr2 hcomp
          rcases mem_dictInsert _ _ _ _ hq2 with hq2 | hq2
          · subst hq2
            rcases mem_dictInsert _ _ _ _ hr2 with hr2 | hr2
            · subst hr2; exact htm
            · exact harp (sid, tbl) (dictGet_mem _ _ _ htbl) r2 hr2 hcomp
          · exact harp q2 hq2 r2 hr2 hcomp
        · rw [← hst]
        · intro m hm
          rw [Option.some.injEq] at hm
          subst hm; exact htm
        · intro p hp; exact ⟨ti.mac, rfl⟩

/-- The resolver `resolve_arp`: preserves the cache invariant and the topology, hands out
only non-empty hardware addresses, and never returns `None` when the target
ip is owned by some interface. -/
theorem resolve_arp_mac_spec (st : SimState) (sid : String) (si : SrcIface)
    (t : String) (x : Option String) (st1 : SimState)
    (hdev : DevMacsOk st.devices) (harp : ArpMacsOk st.arpTable)
    (h : resolve_arp st sid si t = .ok (x, st1)) :
    ArpMacsOk st1.arpTable ∧ st1.devices = st.devices ∧
    (∀ m, x = some m → m ≠ "") ∧
    (∀ p : String × HostIface,
      get_interface_by_ip st.devices t = .ok (some p) → ∃ m, x = some m) := by
  simp only [resolve_arp] at h
  split at h
  · exact absurd h (by simp)
  · rename_i tbl htbl
    split at h
    · rename_i entry hent
      split at h
      · rename_i hcomp
        simp only [Except.ok.injEq, Prod.mk.injEq] at h
        obtain ⟨hx, hst⟩ := h
        subst hx; subst hst
        have hmac : entry.mac ≠ "" :=
          harp (sid, tbl) (dictGet_mem _ _ _ htbl) (t, entry)
            (dictGet_mem _ _ _ hent) hcomp
        refine ⟨harp, rfl, ?_, ?_⟩
        · intro m hm; rw [Option.some.injEq] at hm; subst hm; exact hmac
        · intro p hp; exact ⟨entry.mac, rfl⟩
      · exact resolveArpMiss_spec st sid si t tbl x st1 hdev harp htbl h
    · rename_i hent
      exact resolveArpMiss_spec st sid si t tbl x st1 hdev harp htbl h

/-- Master shape lemma for a `simulate_ping` call that returns: the final
state keeps the topology and satisfies the cache invariant, and — when the
destination ip is owned by some interface — the returned dictionary is not
the `"ARP resolution failed"` error log. -/
theorem simulate_ping_shape (st : SimState) (lost : ℕ → Bool) (rtt : ℕ → ℚ)
    (ev : Event) (r : SimResult) (st' : SimState)
    (hdev : DevMacsOk st.devices) (harp : ArpMacsOk st.arpTable)
    (h : simulate_ping st lost rtt ev = .ok (r, st')) :
    ArpMacsOk st'.arpTable ∧ st'.devices = st.devices ∧
    (∀ p : String × HostIface,
      get_interface_by_ip st.devices ev.destination_ip = .ok (some p) →
      r ≠ create_error_log ev.id "ARP resolution failed") := by
  simp only [simulate_ping] at h
  split at h
  · exact absurd h (by simp)
  · split at h
    · exact absurd h (by simp)
    · split at h
      · exact absurd h (by simp)
      · simp only [Except.ok.injEq, Prod.mk.injEq] at h
        obtain ⟨hr, hst⟩ := h
        subst hr; subst hst
        exact ⟨harp, rfl, fun p hp heq => absurd heq (by simp [create_error_log])⟩
      · split at h
        · exact absurd h (by simp)
        · rename_i si hsi gix dd di hgi rex x st1 hra
          obtain ⟨harp1, hdev1, hmac1, hsome1⟩ :=
            resolve_arp_mac_spec st (netid_to_id ev.source_interface)
              si ev.destination_ip x st1 hdev harp hra
          split at h
          · -- `resolve_arp` returned `None`
            simp only [Except.ok.injEq, Prod.mk.injEq] at h
            obtain ⟨hr, hst⟩ := h
            subst hr; subst hst
            refine ⟨harp1, hdev1, ?_⟩
            intro p hp
            obtain ⟨m, hm⟩ := hsome1 p hp
            cases hm
          · rename_i dest_mac
            split at h
            · -- `resolve_arp` returned the empty string
              rename_i hempty
              exact absurd (hmac1 dest_mac rfl) (by simp [hempty])
            · split at h
              · simp only [pingAggregate] at h
                split at h
                · exact absurd h (by simp)
                · simp only [Except.ok.injEq, Prod.mk.injEq] at h
                  obtain ⟨hr, hst⟩ := h
                  subst hr; subst hst
                  refine ⟨by simpa using harp1, by simpa using hdev1, ?_⟩
                  intro p hp heq
                  exact absurd heq (by simp [create_error_log])
              · split at h
                · simp only [pingAggregate] at h
                  split at h
                  · exact absurd h (by simp)
                  · simp only [Except.ok.injEq, Prod.mk.injEq] at h
                    obtain ⟨hr, hst⟩ := h
                    subst hr; subst hst
                    refine ⟨by simpa using harp1, by simpa using hdev1, ?_⟩
                    intro p hp heq
                    exact absurd heq (by simp [create_error_log])
                · exact absurd h (by simp)

/-- The path loop returns the accumulated path untouched when the current
device already is the destination. -/
theorem pathLoop_at_dest (conns : List Connection) (dest : String) (fuel : ℕ)
    (path : List String) : pathLoop conns dest (fuel + 1) path dest = path := by
  simp [pathLoop]

/-! ### Claim theorems -/

/-- C8: for every connection list and every device id `a`, the path resolver
called with source equal to destination returns the singleton `[a]`; the
quantification over arbitrary connection lists witnesses that the result
never depends on (and hence never scans) the connections in the zero-hop
case, because the `while current_id != dest_id` guard fails immediately. -/
theorem C8_zero_hop (conns : List Connection) (a : String) :
    get_network_path conns a a = [a] :=
  pathLoop_at_dest conns a 199 [a]

/-- Witness for C8 at a concrete topology. -/
theorem C8_witness : get_network_path [connPcSw, connSwPc] "pc1" "pc1" = ["pc1"] :=
  C8_zero_hop [connPcSw, connSwPc] "pc1"

/-- C6: when the ARP cache already holds a complete entry for the requesting
device and the target ip, `resolve_arp` returns that entry's hardware address
and the final state is the input state — the whole cache, including the
existing entry's timestamp, is unchanged. -/
theorem C6_cache_hit_pure (st : SimState) (d t : String) (si : SrcIface)
    (tbl : List (String × ARPEntry)) (entry : ARPEntry)
    (h1 : dictGet d st.arpTable = some tbl)
    (h2 : dictGet t tbl = some entry)
    (h3 : entry.is_complete = true) :
    resolve_arp st d si t = .ok (some entry.mac, st) := by
  simp [resolve_arp, h1, h2, h3]

/-- Witness for C6: a concrete cache hit (entry timestamp 7, clock 3) returns
the cached mac and the very same state. -/
theorem C6_witness :
    dictGet "pc1" stC6.arpTable = some [("10.0.0.2", ⟨"10.0.0.2", "MM:00", 7, true⟩)] ∧
    resolve_arp stC6 "pc1" (.host ⟨"eth0", "AA:BB:CC:DD:EE:01", "10.0.0.1"⟩)
      "10.0.0.2" = .ok (some "MM:00", stC6) :=
  ⟨rfl, C6_cache_hit_pure stC6 "pc1" "10.0.0.2"
    (.host ⟨"eth0", "AA:BB:CC:DD:EE:01", "10.0.0.1"⟩)
    [("10.0.0.2", ⟨"10.0.0.2", "MM:00", 7, true⟩)]
    ⟨"10.0.0.2", "MM:00", 7, true⟩ rfl rfl rfl⟩

/-- C2 (code bug): an event whose `source_interface` names an interface the
source device does not have makes `simulate_ping` raise `StopIteration` (the
bare `next(...)` call), and the exception escapes `simulate_network_events`
— no `"Source interface not found"` failed-status result is ever produced,
contrary to the spec's `SourceInterfaceNotFound` classification and
propagation policy (the truthiness guard below the `next` call is dead
code). -/
theorem C2_source_iface_exception :
    simulate_ping (mkSimulator devSolo []) (fun _ => false) (fun _ => 1)
      evBadIface = .error .stopIteration ∧
    simEventsGo (fun _ => false) (fun _ => 1) (mkSimulator devSolo [])
      [evBadIface] = .error .stopIteration ∧
    simulate_ping (mkSimulator devSolo []) (fun _ => false) (fun _ => 1)
      evBadDev = .error (.keyError "ghost") ∧
    simEventsGo (fun _ => false) (fun _ => 1) (mkSimulator devSolo [])
      [evBadDev] = .error (.keyError "ghost") := ⟨rfl, rfl, rfl, rfl⟩

/-- C3 counterexample: on a topology with a self-connection (both endpoints
of `selfConn` resolve to device `pc1`), nothing fails: `_main.py`'s
validation filter silently drops the connection (returning `ok` with an
empty validated list, no `TopologyError`), while `NetworkSimulator.__init__`
retains it unexamined. -/
theorem C3_counterexample :
    validated_connections devC3 [selfConn] = .ok [] ∧
    validate_connection devC3 selfConn = .ok false ∧
    (mkSimulator devC3 [selfConn]).connections = [selfConn] := ⟨rfl, rfl, rfl⟩

/-- C3 amended: a connection whose two endpoints resolve to the same device
is not an error anywhere in the code: `validate_connection` merely returns
`false` (comparing device *names*), the `validated_connections` loop of
`_main.py` silently drops it, and `NetworkSimulator.__init__` (the
construction used by `main.py`) retains it without any validation; no
`TopologyError` exists in the source. -/
theorem C3_self_connection_amended (devices : Devices) (c : Connection)
    (d : Device)
    (h1 : dictGet (netid_to_id c.from_interface) devices = some d)
    (h2 : dictGet (netid_to_id c.to_interface) devices = some d) :
    validate_connection devices c = .ok false ∧
    validated_connections devices [c] = .ok [] ∧
    (mkSimulator devices [c]).connections = [c] := by
  have hv : validate_connection devices c = .ok false := by
    simp [validate_connection, get_devices_by_connection_id, h1, h2]
  refine ⟨hv, ?_, rfl⟩
  simp [validated_connections, hv]

/-- Witness for C3 at the concrete self-connection. -/
theorem C3_witness :
    dictGet (netid_to_id selfConn.from_interface) devC3 = some pc1dev ∧
    dictGet (netid_to_id selfConn.to_interface) devC3 = some pc1dev ∧
    (validate_connection devC3 selfConn = .ok false ∧
     validated_connections devC3 [selfConn] = .ok [] ∧
     (mkSimulator devC3 [selfConn]).connections = [selfConn]) :=
  ⟨rfl, rfl, C3_self_connection_amended devC3 selfConn pc1dev rfl rfl⟩

/-- C9 counterexample: a batch holding a non-ping event and then a ping event
whose source interface is missing does not produce "one result per ping
event" — the `StopIteration` raised inside `simulate_ping` aborts the whole
run of `simulate_network_events`, so no result list exists at all. -/
theorem C9_counterexample :
    simEventsGo (fun _ => false) (fun _ => 1) (mkSimulator devSolo [])
      [evOther, evBadIface] = .error .stopIteration := rfl

/-- C1 counterexample: with the scenario topology and the connection order
`[pc1↔switch1, switch1↔pc2]` (one of the two orders the claim quantifies
over) and no packet lost, the ping succeeds but `path_taken` is `[]`, not
`["pc1", "switch1", "pc2"]`: walking from `switch1`, the first-match scan
finds the `pc1↔switch1` connection first and bounces back to `pc1`, which is
already in the path, so the loop reports "no route". -/
theorem C1_counterexample :
    pingStatusR (simulate_ping (mkSimulator devScenario [connPcSw, connSwPc])
      (fun _ => false) (fun _ => 1) evPing5) = some "success" ∧
    pingPath (simulate_ping (mkSimulator devScenario [connPcSw, connSwPc])
      (fun _ => false) (fun _ => 1) evPing5) = some [] := ⟨rfl, rfl⟩

/-- C5: whenever `simulate_ping` returns a full result record (which is
exactly the case where the packet-simulation step is reached and a result is
assembled), the record's status is `"success"` iff at least one packet was
received and `"failed"` iff none was — in particular partial loss still
yields `"success"`. -/
theorem C5_status_iff_received (st : SimState) (lost : ℕ → Bool)
    (rtt : ℕ → ℚ) (ev : Event) (s : String) (n : ℕ)
    (hs : pingStatusR (simulate_ping st lost rtt ev) = some s)
    (hn : pingReceived (simulate_ping st lost rtt ev) = some n) :
    (s = "success" ↔ 0 < n) ∧ (s = "failed" ↔ n = 0) := by
  cases hrun : simulate_ping st lost rtt ev with
  | error e => rw [hrun] at hs; simp [pingStatusR] at hs
  | ok p =>
      obtain ⟨r, st2⟩ := p
      cases r with
      | errorLog e2 s2 m => rw [hrun] at hn; simp [pingReceived] at hn
      | record e2 s2 d2 =>
          rw [hrun] at hs hn
          simp only [pingStatusR, pingReceived, Option.some.injEq] at hs hn
          subst hs; subst hn
          obtain ⟨-, -, -, hstat, -⟩ :=
            simulate_ping_record_inv st lost rtt ev e2 s2 d2 st2 hrun
          by_cases hpos : 0 < d2.packets_received
          · rw [if_pos hpos] at hstat
            subst hstat
            refine ⟨by simp [hpos], ?_, ?_⟩
            · intro hco; exact absurd hco (by decide)
            · intro h0; omega
          · rw [if_neg hpos] at hstat
            subst hstat
            refine ⟨⟨fun hco => absurd hco (by decide), fun hp => absurd hp hpos⟩, ?_⟩
            simp only [true_iff]
            omega

/-- Witness for C5: a two-packet ping losing exactly the first packet
(partial loss) reports status `"success"` with one packet received. -/
theorem C5_witness :
    pingStatusR (simulate_ping (mkSimulator devScenario [connSwPc, connPcSw])
      lostFirst (fun _ => 1) evPing2) = some "success" ∧
    pingReceived (simulate_ping (mkSimulator devScenario [connSwPc, connPcSw])
      lostFirst (fun _ => 1) evPing2) = some 1 ∧
    (("success" = "success" ↔ 0 < 1) ∧ ("success" = "failed" ↔ 1 = 0)) :=
  ⟨rfl, rfl,
   C5_status_iff_received (mkSimulator devScenario [connSwPc, connPcSw])
     lostFirst (fun _ => 1) evPing2 "success" 1 rfl rfl⟩

/-- Supporting lemma for C7: in the exact-rational idealization of the
numeric fields, every full result record with a positive `packets_sent`
satisfies `loss_percentage + received / sent * 100 = 100`. This is the
identity the spec intends; the program computes the formulas in IEEE
binary64, where it fails (see `C7_float_counterexample`), so the failure is
attributable to float rounding alone. -/
theorem loss_identity_exact_rat (st : SimState) (lost : ℕ → Bool) (rtt : ℕ → ℚ)
    (ev : Event)
    (h : isRecord (simulate_ping st lost rtt ev) = true)
    (hpos : 0 < (pingDetailsOf (simulate_ping st lost rtt ev)).packets_sent) :
    (pingDetailsOf (simulate_ping st lost rtt ev)).loss_percentage +
      ((pingDetailsOf (simulate_ping st lost rtt ev)).packets_received : ℚ) /
        ((pingDetailsOf (simulate_ping st lost rtt ev)).packets_sent : ℚ) * 100
      = 100 := by
  cases hrun : simulate_ping st lost rtt ev with
  | error e => rw [hrun] at h; simp [isRecord] at h
  | ok p =>
      obtain ⟨r, st2⟩ := p
      cases r with
      | errorLog e2 s2 m => rw [hrun] at h; simp [isRecord] at h
      | record e2 s2 d2 =>
          rw [hrun] at hpos
          simp only [pingDetailsOf] at hpos ⊢
          obtain ⟨-, -, hsent, -, hloss⟩ :=
            simulate_ping_record_inv st lost rtt ev e2 s2 d2 st2 hrun
          rw [hsent] at hpos ⊢
          rw [hloss]
          have hc0 : ((ev.count : ℚ)) ≠ 0 := by
            exact_mod_cast (by omega : ev.count ≠ 0)
          field_simp
          ring

/-- The exact-rational identity instantiated at a concrete run: a one-packet
ping to the host's own address. -/
theorem loss_identity_exact_rat_example :
    isRecord (simulate_ping (mkSimulator devSolo []) (fun _ => false)
      (fun _ => 1) evSelf) = true ∧
    0 < (pingDetailsOf (simulate_ping (mkSimulator devSolo []) (fun _ => false)
      (fun _ => 1) evSelf)).packets_sent ∧
    (pingDetailsOf (simulate_ping (mkSimulator devSolo []) (fun _ => false)
        (fun _ => 1) evSelf)).loss_percentage +
      ((pingDetailsOf (simulate_ping (mkSimulator devSolo []) (fun _ => false)
        (fun _ => 1) evSelf)).packets_received : ℚ) /
        ((pingDetailsOf (simulate_ping (mkSimulator devSolo []) (fun _ => false)
          (fun _ => 1) evSelf)).packets_sent : ℚ) * 100 = 100 :=
  ⟨rfl, by decide,
   loss_identity_exact_rat (mkSimulator devSolo []) (fun _ => false)
     (fun _ => 1) evSelf rfl (by decide)⟩

/-- C4: an event with `count == 0` that resolves its source device and
interface, its destination, and the destination's hardware address does not
produce any result record: computing `loss_percentage` divides
`(sent - received)` by `sent == 0`, raising `ZeroDivisionError`. -/
theorem C4_count_zero_divzero (st : SimState) (lost : ℕ → Bool)
    (rtt : ℕ → ℚ) (ev : Event) (dev : Device) (si : SrcIface)
    (p : String × HostIface) (m : String) (st1 : SimState)
    (hc : ev.count = 0)
    (h1 : dictGet (netid_to_id ev.source_interface) st.devices = some dev)
    (h2 : dev.findSrcIface (netid_to_id ev.source_interface)
      ev.source_interface = some si)
    (h3 : get_interface_by_ip st.devices ev.destination_ip = .ok (some p))
    (h4 : resolve_arp st (netid_to_id ev.source_interface) si
      ev.destination_ip = .ok (some m, st1))
    (h5 : m ≠ "") :
    simulate_ping st lost rtt ev = .error .zeroDivisionError := by
  obtain ⟨dd, di⟩ := p
  simp only [simulate_ping, h1, h2, h3, h4]
  rw [if_neg h5]
  cases si with
  | host i => simp [pingAggregate, hc]
  | sw i => simp [pingAggregate, hc]

/-- Witness for C4: the scenario ping with `count = 0` ends in
`ZeroDivisionError`. -/
theorem C4_witness :
    evCount0.count = 0 ∧
    dictGet (netid_to_id evCount0.source_interface)
      (mkSimulator devScenario [connSwPc, connPcSw]).devices = some pc1dev ∧
    pc1dev.findSrcIface (netid_to_id evCount0.source_interface)
      evCount0.source_interface =
      some (.host ⟨"eth0", "AA:BB:CC:DD:EE:01", "10.0.0.1"⟩) ∧
    get_interface_by_ip (mkSimulator devScenario [connSwPc, connPcSw]).devices
      evCount0.destination_ip =
      .ok (some ("pc2", ⟨"eth0", "AA:BB:CC:DD:EE:02", "10.0.0.2"⟩)) ∧
    resolve_arp (mkSimulator devScenario [connSwPc, connPcSw])
      (netid_to_id evCount0.source_interface)
      (.host ⟨"eth0", "AA:BB:CC:DD:EE:01", "10.0.0.1"⟩)
      evCount0.destination_ip =
      .ok (some "AA:BB:CC:DD:EE:02", stScenarioArp [connSwPc, connPcSw]) ∧
    simulate_ping (mkSimulator devScenario [connSwPc, connPcSw])
      (fun _ => false) (fun _ => 1) evCount0 = .error .zeroDivisionError :=
  ⟨rfl, rfl, rfl, rfl, rfl,
   C4_count_zero_divzero (mkSimulator devScenario [connSwPc, connPcSw])
     (fun _ => false) (fun _ => 1) evCount0 pc1dev
     (.host ⟨"eth0", "AA:BB:CC:DD:EE:01", "10.0.0.1"⟩)
     ("pc2", ⟨"eth0", "AA:BB:CC:DD:EE:02", "10.0.0.2"⟩)
     "AA:BB:CC:DD:EE:02" (stScenarioArp [connSwPc, connPcSw])
     rfl rfl rfl rfl rfl (by decide)⟩

/-- C1 amended: for the scenario topology (devices listed so that `pc2` is
scanned before `switch1` — otherwise `get_interface_by_ip` raises
`AttributeError` on the ip-less switch interfaces), any RTT stream inside
`[0.1, 2.0]` (the contract of `random.uniform(0.1, 2.0)`), and any loss
stream sparing at least one of the 5 packets, the ping yields a record with
status `"success"`, `packets_sent = 5` and all recorded RTTs in `[0.1, 2.0]`;
however `path_taken` depends on the connection order: it is
`["pc1", "switch1", "pc2"]` when the `switch1↔pc2` connection is listed
first, and `[]` (first-match bounce-back) when `pc1↔switch1` is listed
first. -/
theorem C1_scenario_amended (lost : ℕ → Bool) (rtt : ℕ → ℚ)
    (hr : ∀ i, (1 : ℚ)/10 ≤ rtt i ∧ rtt i ≤ 2)
    (hl : ∃ i, i < 5 ∧ lost i = false) :
    (∃ d st', simulate_ping (mkSimulator devScenario [connSwPc, connPcSw])
        lost rtt evPing5 = .ok (.record "e1" "success" d, st') ∧
      d.packets_sent = 5 ∧ d.path_taken = ["pc1", "switch1", "pc2"] ∧
      detailsRttsIn (1/10) 2 d) ∧
    (∃ d st', simulate_ping (mkSimulator devScenario [connPcSw, connSwPc])
        lost rtt evPing5 = .ok (.record "e1" "success" d, st') ∧
      d.packets_sent = 5 ∧ d.path_taken = [] ∧
      detailsRttsIn (1/10) 2 d) := by
  have hpos : 0 < (pingLoop lost rtt echoReqS echoRepS 0 0 5).1 := by
    rw [pingLoop_fst_pos lost rtt echoReqS echoRepS 5 0 0]
    simpa using hl
  have hrng : ∀ l ∈ (pingLoop lost rtt echoReqS echoRepS 0 0 5).2.2,
      ∀ x : ℚ, l.rtt = some x → (1 : ℚ)/10 ≤ x ∧ x ≤ 2 :=
    pingLoop_rtt_range lost rtt echoReqS echoRepS (1/10) 2 hr 5 0 0
  constructor
  · rw [scenario_reduce [connSwPc, connPcSw] lost rtt]
    rcases hp : pingLoop lost rtt echoReqS echoRepS 0 0 5 with ⟨succ, rtts, logs⟩
    rw [hp] at hpos hrng
    simp only at hpos hrng
    simp only [pingAggregate]
    rw [if_neg (by decide : ¬ (evPing5.count = 0)), if_pos hpos]
    refine ⟨_, _, rfl, rfl, ?_, ?_⟩
    · show get_network_path (stScenarioArp [connSwPc, connPcSw]).connections
        "pc1" "pc2" = ["pc1", "switch1", "pc2"]
      decide
    · intro l hl2 x hx
      exact hrng l hl2 x hx
  · rw [scenario_reduce [connPcSw, connSwPc] lost rtt]
    rcases hp : pingLoop lost rtt echoReqS echoRepS 0 0 5 with ⟨succ, rtts, logs⟩
    rw [hp] at hpos hrng
    simp only at hpos hrng
    simp only [pingAggregate]
    rw [if_neg (by decide : ¬ (evPing5.count = 0)), if_pos hpos]
    refine ⟨_, _, rfl, rfl, ?_, ?_⟩
    · show get_network_path (stScenarioArp [connPcSw, connSwPc]).connections
        "pc1" "pc2" = []
      decide
    · intro l hl2 x hx
      exact hrng l hl2 x hx

/-- Witness for C1 with the all-received, constant-RTT streams. -/
theorem C1_witness :
    (∃ d st', simulate_ping (mkSimulator devScenario [connSwPc, connPcSw])
        (fun _ => false) (fun _ => 1) evPing5 =
          .ok (.record "e1" "success" d, st') ∧
      d.packets_sent = 5 ∧ d.path_taken = ["pc1", "switch1", "pc2"] ∧
      detailsRttsIn (1/10) 2 d) ∧
    (∃ d st', simulate_ping (mkSimulator devScenario [connPcSw, connSwPc])
        (fun _ => false) (fun _ => 1) evPing5 =
          .ok (.record "e1" "success" d, st') ∧
      d.packets_sent = 5 ∧ d.path_taken = [] ∧
      detailsRttsIn (1/10) 2 d) :=
  C1_scenario_amended (fun _ => false) (fun _ => 1)
    (fun i => ⟨by norm_num, by norm_num⟩) ⟨0, by omega, rfl⟩

/-- C9 amended: the event loop of `simulate_network_events` skips any
non-ping event (producing no result entry and no error), turns a ping event
whose simulation returns into exactly one result prepended in order, and —
whenever the whole run returns a result list — produces exactly one result
per ping event of the batch; the amendment is that a ping event whose
simulation raises aborts the whole batch instead (see the counterexample). -/
theorem C9_runner_amended (lost : ℕ → Bool) (rtt : ℕ → ℚ) :
    (∀ st (e : Event) rest, e.type ≠ "ping" →
        simEventsGo lost rtt st (e :: rest) = simEventsGo lost rtt st rest) ∧
    (∀ st (e : Event) rest r st', e.type = "ping" →
        simulate_ping st lost rtt e = .ok (r, st') →
        simEventsGo lost rtt st (e :: rest) =
          (simEventsGo lost rtt st' rest).map (fun rs => r :: rs)) ∧
    (∀ (events : List Event) st rs, simEventsGo lost rtt st events = .ok rs →
        rs.length = (events.filter (fun e => e.type == "ping")).length) := by
  refine ⟨?_, ?_, ?_⟩
  · intro st e rest h
    simp [simEventsGo, h]
  · intro st e rest r st' ht hrun
    simp only [simEventsGo, if_pos ht, hrun]
    cases simEventsGo lost rtt st' rest <;> simp [Except.map]
  · intro events
    induction events with
    | nil =>
        intro st rs h
        simp only [simEventsGo, Except.ok.injEq] at h
        subst h
        simp
    | cons e rest ih =>
        intro st rs h
        by_cases ht : e.type = "ping"
        · simp only [simEventsGo, if_pos ht] at h
          split at h
          · exact absurd h (by simp)
          · rename_i sc r st1 hrun
            split at h
            · exact absurd h (by simp)
            · rename_i sc2 rs0 hrec
              simp only [Except.ok.injEq] at h
              subst h
              have hbeq : (e.type == "ping") = true := by simpa using ht
              simp only [List.filter_cons, hbeq, if_true, List.length_cons]
              rw [ih st1 rs0 hrec]
        · simp only [simEventsGo, if_neg ht] at h
          have hbeq : (e.type == "ping") = false := by simpa using ht
          simp only [List.filter_cons, hbeq]
          exact ih st rs h

/-- Witness for C9: the skip rule and the one-result-per-ping count applied
to a concrete batch holding a single non-ping event. -/
theorem C9_witness :
    simEventsGo (fun _ => false) (fun _ => (1 : ℚ)) (mkSimulator devSolo [])
      [evOther] = .ok [] ∧
    simEventsGo (fun _ => false) (fun _ => (1 : ℚ)) (mkSimulator devSolo [])
      [evOther] =
      simEventsGo (fun _ => false) (fun _ => 1) (mkSimulator devSolo []) [] ∧
    ([] : List SimResult).length =
      ([evOther].filter (fun e => e.type == "ping")).length :=
  ⟨rfl,
   (C9_runner_amended (fun _ => false) (fun _ => 1)).1
     (mkSimulator devSolo []) evOther [] (by decide),
   (C9_runner_amended (fun _ => false) (fun _ => 1)).2.2
     [evOther] (mkSimulator devSolo []) [] rfl⟩

/-- C10: over a topology whose host interfaces all carry non-empty hardware
addresses and a cache satisfying the run invariant (complete entries carry
non-empty macs), (1) `resolve_arp` for an ip owned by some interface always
returns a non-empty address — never `None`; (2) hence the
`"ARP resolution failed"` error log of `simulate_ping` is unreachable for
such events, the `DestinationUnreachable` check subsuming every ARP failure;
(3) the invariant holds for the freshly constructed simulator and (4) is
preserved by every returning `simulate_ping` call, the topology being
immutable — so (2) applies throughout a run. -/
theorem C10_arp_failure_unreachable :
    (∀ (st : SimState) sid si t (p : String × HostIface) x st1,
        DevMacsOk st.devices → ArpMacsOk st.arpTable →
        get_interface_by_ip st.devices t = .ok (some p) →
        resolve_arp st sid si t = .ok (x, st1) →
        ∃ m, x = some m ∧ m ≠ "") ∧
    (∀ (st : SimState) lost rtt (ev : Event) r st' (p : String × HostIface),
        DevMacsOk st.devices → ArpMacsOk st.arpTable →
        get_interface_by_ip st.devices ev.destination_ip = .ok (some p) →
        simulate_ping st lost rtt ev = .ok (r, st') →
        r ≠ create_error_log ev.id "ARP resolution failed") ∧
    (∀ (devices : Devices) conns,
        ArpMacsOk (mkSimulator devices conns).arpTable) ∧
    (∀ (st : SimState) lost rtt (ev : Event) r st',
        DevMacsOk st.devices → ArpMacsOk st.arpTable →
        simulate_ping st lost rtt ev = .ok (r, st') →
        ArpMacsOk st'.arpTable ∧ st'.devices = st.devices) := by
  refine ⟨?_, ?_, ?_, ?_⟩
  · intro st sid si t p x st1 hdev harp hgi hra
    obtain ⟨-, -, hmac, hsome⟩ :=
      resolve_arp_mac_spec st sid si t x st1 hdev harp hra
    obtain ⟨m, hm⟩ := hsome p hgi
    exact ⟨m, hm, hmac m hm⟩
  · intro st lost rtt ev r st' p hdev harp hgi hrun
    obtain ⟨-, -, hnot⟩ :=
      simulate_ping_shape st lost rtt ev r st' hdev harp hrun
    exact hnot p hgi
  · intro devices conns q hq r hr hcomp
    simp only [mkSimulator, List.mem_map] at hq
    obtain ⟨p2, -, hp2⟩ := hq
    rw [← hp2] at hr
    simp at hr
  · intro st lost rtt ev r st' hdev harp hrun
    obtain ⟨h1, h2, -⟩ :=
      simulate_ping_shape st lost rtt ev r st' hdev harp hrun
    exact ⟨h1, h2⟩

set_option maxRecDepth 16384 in
/-- C7 (code bug): at the reachable result `sent = 3, received = 1` the
program's binary64 arithmetic refutes the claimed exact identity. The loss
percentage `((3 - 1) / 3) * 100` evaluates to the double
`4691249611844266 * 2 ^ (-46)` (printed `66.66666666666666`) and
`(1 / 3) * 100` to `4691249611844266 * 2 ^ (-47)` (printed
`33.33333333333333`). Their exact sum is `14073748835532798 * 2 ^ (-47)`,
which normalizes to `7036874417766399 * 2 ^ (-46)` — a representable double
(the mantissa is below `2 ^ 53`), so the float addition returns exactly it —
and it differs from 100: the program yields `99.99999999999999`, not 100.
In exact arithmetic the identity does hold (`loss_identity_exact_rat`), so
the spec's testable property is broken purely by the float rounding of the
source's formulas. -/
theorem C7_float_counterexample :
    fmul100 (fquot (3 - 1) 3) = (4691249611844266, -46) ∧
    fmul100 (fquot 1 3) = (4691249611844266, -47) ∧
    dyadicAdd (fmul100 (fquot (3 - 1) 3)) (fmul100 (fquot 1 3)) =
      (14073748835532798, -47) ∧
    dyadicEqNat
      (dyadicAdd (fmul100 (fquot (3 - 1) 3)) (fmul100 (fquot 1 3))) 100 =
      false := by
  decide

/-- Witness for C10: the first and third components applied to the concrete
scenario: resolving `10.0.0.2` from `pc1` on the fresh simulator returns the
non-empty mac of `pc2.eth0`. -/
theorem C10_witness :
    DevMacsOk (mkSimulator devScenario [connSwPc, connPcSw]).devices ∧
    ArpMacsOk (mkSimulator devScenario [connSwPc, connPcSw]).arpTable ∧
    (∃ m, (some "AA:BB:CC:DD:EE:02" : Option String) = some m ∧ m ≠ "") :=
  ⟨by decide, by decide,
   C10_arp_failure_unreachable.1 (mkSimulator devScenario [connSwPc, connPcSw])
     "pc1" (.host ⟨"eth0", "AA:BB:CC:DD:EE:01", "10.0.0.1"⟩) "10.0.0.2"
     ("pc2", ⟨"eth0", "AA:BB:CC:DD:EE:02", "10.0.0.2"⟩)
     (some "AA:BB:CC:DD:EE:02") (stScenarioArp [connSwPc, connPcSw])
     (by decide) (by decide) rfl rfl⟩

end Simlink
